import Mathlib

/-!
Verification development for the `errs` crate (sttk/errs-rust).

The Rust sources are shallowly embedded as executable Lean definitions:

* `src/err.rs`: the `Err` value, its constructors `new` / `with_source`,
  the type-erased reason extraction (`reason`, `is_reason`), the
  `Debug` / `Display` renderings (`debug_reason_and_source`,
  `display_reason_and_source`) and the two-owner drop protocol
  (`drop_reason_and_source`).
* `src/notify/std_handler.rs`, `src/notify/tokio_handler.rs`,
  `src/notify/mod.rs`: registration, freezing and dispatch of error
  handlers.

Conventions of the embedding:

* The Rust formatter writes are modelled as string concatenation; a
  `{:?}` rendering of an opaque reason or source value is carried as a
  precomputed string argument.
* Rust `TypeId`s are modelled as `Nat`; distinct concrete types have
  distinct ids (Rust guarantees `TypeId::of::<R>() = TypeId::of::<S>()`
  iff `R = S`).
* Handlers are opaque callbacks; the embedding represents them by an
  arbitrary type parameter `H` and records, for each dispatch, which
  handlers were invoked inline and which were handed to spawned work,
  in order.
* The code runs sequentially in the embedding: a dispatch result is
  produced before the constructor returns, which models "synchronous
  handlers complete before construction returns".
-/

namespace Errs

/-! ## Type-erased reason container and `Err` value (src/err.rs) -/

/-- Embedding of the Rust `Err` struct (src/lib.rs): creation site plus
the type-erased reason-and-source payload. The payload's type id, type
name and debug rendering are the data that the specialized operation
table of `ReasonAndSource::<R, E>` closes over. -/
structure Err (R : Type) where
  file : String
  line : Nat
  reasonTypeId : Nat
  reasonTypeName : String
  reason : R
  reasonDebugStr : String
  sourceDebug : Option String
deriving DecidableEq

/-- Embedding of `Err::new` (src/err.rs lines 49-84): stores the reason,
captures the call site, no source. -/
def Err.new {R : Type} (file : String) (line tid : Nat) (tname : String)
    (r : R) (rdbg : String) : Err R :=
  { file := file, line := line, reasonTypeId := tid, reasonTypeName := tname,
    reason := r, reasonDebugStr := rdbg, sourceDebug := none }

/-- Embedding of `Err::with_source` (src/err.rs lines 111-147): same as
`new` plus the debug rendering of the stored source. -/
def Err.with_source {R : Type} (file : String) (line tid : Nat) (tname : String)
    (r : R) (rdbg : String) (srcDbg : String) : Err R :=
  { file := file, line := line, reasonTypeId := tid, reasonTypeName := tname,
    reason := r, reasonDebugStr := rdbg, sourceDebug := some srcDbg }

/-- Embedding of `is_reason::<R>` (src/err.rs lines 320-325): the stored
type-match predicate compares `TypeId::of::<R>()` with the requested id. -/
def is_reason (reasonTid tid : Nat) : Bool :=
  reasonTid == tid

/-- Embedding of `Err::reason::<S>` (src/err.rs lines 194-207): calls the
stored `is_fn` on `TypeId::of::<S>()`; on a match the payload is
reinterpreted as `S` (sound by `TypeId` injectivity, so it is the stored
reason itself), otherwise the `Err` itself is returned. -/
def Err.reasonAs {R : Type} (e : Err R) (tid : Nat) : Sum R (Err R) :=
  if is_reason e.reasonTypeId tid then Sum.inl e.reason else Sum.inr e

/-- Embedding of `debug_reason_and_source` (src/err.rs lines 346-367):
writes `reason = <type-name> <reason-debug>` and then
`, source = <source-debug>` exactly when a source is present. -/
def debug_reason_and_source (tname rdbg : String) (srcDbg : Option String) : String :=
  ("reason = " ++ tname ++ " " ++ rdbg) ++
    (match srcDbg with
     | some s => ", source = " ++ s
     | none => "")

/-- Embedding of `impl fmt::Debug for Err` (src/err.rs lines 263-272):
writes `errs::Err { `, then the output of `debug_reason_and_source`,
then `, file = <file>, line = <line>`, then ` }`. -/
def Err.debugFmt {R : Type} (e : Err R) : String :=
  "errs::Err" ++ " \x7b " ++
    debug_reason_and_source e.reasonTypeName e.reasonDebugStr e.sourceDebug ++
    (", file = " ++ e.file ++ ", line = " ++ toString e.line) ++
    " \x7d"

/-- Embedding of `display_reason_and_source` (src/err.rs lines 369-379):
writes the `{:?}` rendering of the reason alone. -/
def display_reason_and_source {R : Type} (e : Err R) : String :=
  e.reasonDebugStr

/-- Embedding of `impl fmt::Display for Err` (src/err.rs lines 274-279):
delegates to the stored `display_fn`. -/
def Err.displayFmt {R : Type} (e : Err R) : String :=
  display_reason_and_source e

/-- Formalisation of the spec's words for the claimed Debug template:
`"<TypeName> { reason = <type-path> <reason-debug>, file = <file>,
line = <line>[, source = <cause-debug>] }"`, with the optional source
segment placed after the `line` field. -/
def errDebugSpecTemplate {R : Type} (e : Err R) : String :=
  "errs::Err" ++ " \x7b " ++
    ("reason = " ++ e.reasonTypeName ++ " " ++ e.reasonDebugStr) ++
    (", file = " ++ e.file ++ ", line = " ++ toString e.line) ++
    (match e.sourceDebug with
     | some s => ", source = " ++ s
     | none => "") ++
    " \x7d"

/-- Amended Debug template: identical to the spec's template except that
the optional `, source = <cause-debug>` segment sits immediately after
the reason field, before `file`, which is where the code writes it. -/
def errDebugAmendedTemplate {R : Type} (e : Err R) : String :=
  "errs::Err" ++ " \x7b " ++
    ("reason = " ++ e.reasonTypeName ++ " " ++ e.reasonDebugStr) ++
    (match e.sourceDebug with
     | some s => ", source = " ++ s
     | none => "") ++
    (", file = " ++ e.file ++ ", line = " ++ toString e.line) ++
    " \x7d"

/-- Example reason type used by the spec's Scenario A, with the rendering
that Rust's derived `Debug` produces for it. -/
structure InvalidValue where
  name : String
  value : String
deriving DecidableEq

/-- Rendering of `InvalidValue` by Rust's derived `Debug` implementation:
`InvalidValue { name: "<name>", value: "<value>" }`. -/
def InvalidValue.rustDebug (v : InvalidValue) : String :=
  "InvalidValue \x7b name: \"" ++ v.name ++ "\", value: \"" ++ v.value ++ "\" \x7d"

/-! ## Two-owner drop protocol (src/err.rs lines 256-261 and 327-344)

When notification is enabled, the `ReasonAndSource` payload carries the
atomic flag `is_referenced_by_another`, initialized to `true`, and is
pointed to by exactly two `Err` owners: the value returned to the
caller and the notification copy. `Drop for Err` calls the stored
`drop_fn`, which performs `fetch_and(false, AcqRel)` on the flag and
frees the payload only when the value it read back was already `false`.
Each drop is a single atomic read-modify-write, so an interleaving of
the two owners' drops is a sequence of two `drop_reason_and_source`
steps on the shared state, and the two owners run the identical step. -/

/-- Shared lifetime state of one `ReasonAndSource` payload: the atomic
marker, how many owners still hold the pointer, and how many times the
payload has been freed so far. -/
structure PayloadState where
  isReferencedByAnother : Bool
  owners : Nat
  freeCount : Nat
deriving DecidableEq

/-- State at construction under the notify feature: marker `true`
(src/err.rs lines 300-301), two owners, payload live. -/
def payloadInit : PayloadState :=
  { isReferencedByAnother := true, owners := 2, freeCount := 0 }

/-- Embedding of `drop_reason_and_source` (src/err.rs lines 327-344), as
run by `Drop for Err` of either owner: `fetch_and(false)` clears the
marker and yields its previous value; the payload is freed only when
that previous value was `false`. -/
def drop_reason_and_source (s : PayloadState) : PayloadState :=
  { isReferencedByAnother := false,
    owners := s.owners - 1,
    freeCount := if s.isReferencedByAnother then s.freeCount else s.freeCount + 1 }

/-! ## Handler registry and notification dispatcher (src/notify/) -/

/-- Error kinds of the notification subsystem
(src/notify/mod.rs lines 29-34). -/
inductive ErrHandlingErrorKind where
  | StdMutexIsPoisoned
  | InvalidInternalState
  | InvalidCallTiming
deriving DecidableEq

/-- Name of an `ErrHandlingErrorKind`, as Rust's derived `Debug` prints it. -/
def ErrHandlingErrorKind.rustName : ErrHandlingErrorKind → String
  | .StdMutexIsPoisoned => "StdMutexIsPoisoned"
  | .InvalidInternalState => "InvalidInternalState"
  | .InvalidCallTiming => "InvalidCallTiming"

/-- Rendering of `ErrHandlingError` by Rust's derived `Debug`
implementation: `ErrHandlingError { kind: <kind> }`. -/
def errHandlingErrorDebug (k : ErrHandlingErrorKind) : String :=
  "ErrHandlingError \x7b kind: " ++ k.rustName ++ " \x7d"

/-- Modelled from the spec: phase flag of the handler registry,
`Open -> Fixed` (spec section 4.3). The registry cells are values of the
external `setup_read_cleanup` crate (`GracefulPhasedCellSync`), whose
source is not part of this repository; its phased semantics are taken
from the spec: Open is mutable under a lock, the freeze is a one-time
transition, Fixed is immutable for the process lifetime. The brief
internal Transitioning phase is a cross-thread visibility concern and
does not arise in this sequential embedding. -/
inductive Phase where
  | Open
  | Fixed
deriving DecidableEq

/-- Modelled from the spec: environmental faults of the registry cell
that the source maps to dedicated error kinds (spec sections 4.3 and 7):
the internal storage being unexpectedly missing
(`InternalDataUnavailable`) and the guarding mutex being poisoned by a
fault on another thread (`InternalDataMutexIsPoisoned`). These can only
be caused by the environment, never by the sequential protocol itself,
so they are carried as a state component. -/
inductive RegistryFault where
  | DataUnavailable
  | DataMutexPoisoned
deriving DecidableEq

/-- Mapping of a registry-cell fault to the error kind reported by the
registration and fixing functions (src/notify/std_handler.rs lines
31-41, 75-86 and src/notify/tokio_handler.rs lines 34-44, 52-63). -/
def RegistryFault.toErrKind : RegistryFault → ErrHandlingErrorKind
  | .DataUnavailable => ErrHandlingErrorKind.InvalidInternalState
  | .DataMutexPoisoned => ErrHandlingErrorKind.StdMutexIsPoisoned

/-- State of the std-flavor registry cell
(`HANDLERS : GracefulPhasedCellSync<(Vec<SyncBoxedFn>, Vec<AsyncArcFn>)>`,
src/notify/std_handler.rs lines 16-17): the pair of handler lists in
registration order, the phase, and any environmental fault. Handlers
are opaque callbacks, represented by an arbitrary type `H`. -/
structure StdRegistry (H : Type) where
  phase : Phase
  syncHandlers : List H
  asyncHandlers : List H
  fault : Option RegistryFault
deriving DecidableEq

/-- State of the tokio-flavor registry cell
(`HANDLERS : GracefulPhasedCellSync<Vec<TokioAsyncFn>>`,
src/notify/tokio_handler.rs lines 18-19). -/
structure TokioRegistry (H : Type) where
  phase : Phase
  handlers : List H
  fault : Option RegistryFault
deriving DecidableEq

/-- Embedding of `add_sync_handler` (src/notify/std_handler.rs lines
19-43): under a healthy Open lock the handler is appended to the sync
list; a fixed registry refuses the lock, which falls into the catch-all
arm `InvalidCallTiming`; faults map per `RegistryFault.toErrKind`. -/
def add_sync_handler {H : Type} (st : StdRegistry H) (h : H) :
    Except ErrHandlingErrorKind Unit × StdRegistry H :=
  match st.fault with
  | some k => (Except.error k.toErrKind, st)
  | none =>
    match st.phase with
    | Phase.Open => (Except.ok (), { st with syncHandlers := st.syncHandlers ++ [h] })
    | Phase.Fixed => (Except.error ErrHandlingErrorKind.InvalidCallTiming, st)

/-- Embedding of `add_async_handler` (src/notify/std_handler.rs lines
45-69): identical to `add_sync_handler` but appends to the async list. -/
def add_async_handler {H : Type} (st : StdRegistry H) (h : H) :
    Except ErrHandlingErrorKind Unit × StdRegistry H :=
  match st.fault with
  | some k => (Except.error k.toErrKind, st)
  | none =>
    match st.phase with
    | Phase.Open => (Except.ok (), { st with asyncHandlers := st.asyncHandlers ++ [h] })
    | Phase.Fixed => (Except.error ErrHandlingErrorKind.InvalidCallTiming, st)

/-- Embedding of `add_tokio_async_handler`
(src/notify/tokio_handler.rs lines 21-46). -/
def add_tokio_async_handler {H : Type} (st : TokioRegistry H) (h : H) :
    Except ErrHandlingErrorKind Unit × TokioRegistry H :=
  match st.fault with
  | some k => (Except.error k.toErrKind, st)
  | none =>
    match st.phase with
    | Phase.Open => (Except.ok (), { st with handlers := st.handlers ++ [h] })
    | Phase.Fixed => (Except.error ErrHandlingErrorKind.InvalidCallTiming, st)

/-- Embedding of `register_handlers_by_inventory`
(src/notify/std_handler.rs lines 272-288): the statically collected
handlers of each flavor are spliced at position `0..0`, i.e. prepended
in front of the runtime-registered ones. The inventory contents are
passed explicitly as the lists `syncInv` and `asyncInv`. -/
def register_handlers_by_inventory {H : Type} (syncInv asyncInv : List H)
    (vv : List H × List H) : List H × List H :=
  (syncInv ++ vv.1, asyncInv ++ vv.2)

/-- Outcome of `transition_to_read` on a phased cell. Modelled from the
spec (section 4.3): the freeze succeeds from Open, reports
`PhaseIsAlreadyRead` when already Fixed, and surfaces environmental
faults; a caller racing a freeze in progress waits and then reads,
which a sequential run never observes. -/
inductive TransitionOutcome where
  | ok
  | alreadyRead
  | fault (k : RegistryFault)
deriving DecidableEq

/-- Freeze step of the std-flavor cell: from Open it runs
`register_handlers_by_inventory` on the stored pair and moves to Fixed;
from Fixed it reports `alreadyRead` and changes nothing. -/
def std_transition_to_read {H : Type} (syncInv asyncInv : List H)
    (st : StdRegistry H) : TransitionOutcome × StdRegistry H :=
  match st.fault with
  | some k => (TransitionOutcome.fault k, st)
  | none =>
    match st.phase with
    | Phase.Fixed => (TransitionOutcome.alreadyRead, st)
    | Phase.Open =>
      let merged := register_handlers_by_inventory syncInv asyncInv
        (st.syncHandlers, st.asyncHandlers)
      (TransitionOutcome.ok,
        { st with
            phase := Phase.Fixed
            syncHandlers := merged.1
            asyncHandlers := merged.2 })

/-- Freeze step of the tokio-flavor cell, with the tokio inventory
spliced at the front (src/notify/tokio_handler.rs lines 238-246). -/
def tokio_transition_to_read {H : Type} (inv : List H)
    (st : TokioRegistry H) : TransitionOutcome × TokioRegistry H :=
  match st.fault with
  | some k => (TransitionOutcome.fault k, st)
  | none =>
    match st.phase with
    | Phase.Fixed => (TransitionOutcome.alreadyRead, st)
    | Phase.Open =>
      (TransitionOutcome.ok,
        { st with phase := Phase.Fixed, handlers := inv ++ st.handlers })

/-- Embedding of `fix_handlers` (src/notify/std_handler.rs lines 71-91):
performs the freeze; `PhaseIsAlreadyRead` is swallowed into `Ok`,
faults are mapped to their error kinds. -/
def fix_handlers {H : Type} (syncInv asyncInv : List H)
    (st : StdRegistry H) : Except ErrHandlingErrorKind Unit × StdRegistry H :=
  match std_transition_to_read syncInv asyncInv st with
  | (TransitionOutcome.ok, st1) => (Except.ok (), st1)
  | (TransitionOutcome.alreadyRead, st1) => (Except.ok (), st1)
  | (TransitionOutcome.fault k, st1) => (Except.error k.toErrKind, st1)

/-- Embedding of the tokio-flavor `fix_handlers`
(src/notify/tokio_handler.rs lines 48-68). -/
def tokio_fix_handlers {H : Type} (inv : List H)
    (st : TokioRegistry H) : Except ErrHandlingErrorKind Unit × TokioRegistry H :=
  match tokio_transition_to_read inv st with
  | (TransitionOutcome.ok, st1) => (Except.ok (), st1)
  | (TransitionOutcome.alreadyRead, st1) => (Except.ok (), st1)
  | (TransitionOutcome.fault k, st1) => (Except.error k.toErrKind, st1)

/-- Observable effect of one std-flavor dispatch
(src/notify/std_handler.rs lines 122-160): the synchronous handlers
invoked inline on the constructing thread, in iteration order; the
asynchronous handlers handed to the spawned carrier thread, in order;
and whether that carrier thread was spawned at all. -/
structure DispatchResult (H : Type) where
  syncInvoked : List H
  asyncScheduled : List H
  carrierThreadSpawned : Bool
deriving DecidableEq

/-- Embedding of the std-flavor `handle_err`
(src/notify/std_handler.rs lines 93-173): it first performs the
implicit freeze (reading the snapshot afterwards; an already-fixed cell
is read relaxed), then unconditionally spawns one carrier thread which
re-spawns the async handlers, then runs the sync handlers inline in
order. There is no emptiness check on either handler list. -/
def handle_err {H : Type} (syncInv asyncInv : List H) (st : StdRegistry H) :
    Except ErrHandlingErrorKind (DispatchResult H) × StdRegistry H :=
  match std_transition_to_read syncInv asyncInv st with
  | (TransitionOutcome.ok, st1) =>
    (Except.ok { syncInvoked := st1.syncHandlers,
                 asyncScheduled := st1.asyncHandlers,
                 carrierThreadSpawned := true }, st1)
  | (TransitionOutcome.alreadyRead, st1) =>
    (Except.ok { syncInvoked := st1.syncHandlers,
                 asyncScheduled := st1.asyncHandlers,
                 carrierThreadSpawned := true }, st1)
  | (TransitionOutcome.fault k, st1) => (Except.error k.toErrKind, st1)

/-- Observable effect of one tokio-flavor dispatch
(src/notify/tokio_handler.rs lines 99-132): the handler futures
scheduled, in order, and whether a dedicated carrier thread (hosting a
private runtime) was spawned, which happens exactly when no ambient
tokio runtime is available. -/
structure TokioDispatchResult (H : Type) where
  tasksScheduled : List H
  carrierThreadSpawned : Bool
deriving DecidableEq

/-- Embedding of the tokio-flavor `handle_err`
(src/notify/tokio_handler.rs lines 70-145): after the implicit freeze,
with an ambient runtime each handler is spawned onto it directly;
without one a dedicated thread with a private runtime is spawned
unconditionally, and the handlers are spawned inside it. -/
def tokio_handle_err {H : Type} (inv : List H) (hasAmbientRuntime : Bool)
    (st : TokioRegistry H) :
    Except ErrHandlingErrorKind (TokioDispatchResult H) × TokioRegistry H :=
  match tokio_transition_to_read inv st with
  | (TransitionOutcome.ok, st1) =>
    (Except.ok { tasksScheduled := st1.handlers,
                 carrierThreadSpawned := !hasAmbientRuntime }, st1)
  | (TransitionOutcome.alreadyRead, st1) =>
    (Except.ok { tasksScheduled := st1.handlers,
                 carrierThreadSpawned := !hasAmbientRuntime }, st1)
  | (TransitionOutcome.fault k, st1) => (Except.error k.toErrKind, st1)

/-- Whether a std-flavor dispatch spawned any unit of work (the carrier
thread that re-spawns the async handlers). -/
def stdDispatchSpawnedWork {H : Type} :
    Except ErrHandlingErrorKind (DispatchResult H) → Bool
  | Except.ok d => d.carrierThreadSpawned
  | Except.error _ => false

/-- Combined state of both registry flavors, as used by
`fix_err_handlers` and `notify_err` (src/notify/mod.rs). -/
structure NotifyState (H : Type) where
  std : StdRegistry H
  tokio : TokioRegistry H
deriving DecidableEq

/-- The statically pre-declared (inventory-collected) handlers of the
three flavors. -/
structure Inventory (H : Type) where
  syncInv : List H
  asyncInv : List H
  tokioInv : List H
deriving DecidableEq

/-- Embedding of `fix_err_handlers` (src/notify/mod.rs lines 130-143):
fixes both flavors (both run regardless of the first result), then
reports the std error first, else the tokio one. -/
def fix_err_handlers {H : Type} (inv : Inventory H) (st : NotifyState H) :
    Except ErrHandlingErrorKind Unit × NotifyState H :=
  let pStd := fix_handlers inv.syncInv inv.asyncInv st.std
  let pTokio := tokio_fix_handlers inv.tokioInv st.tokio
  let r := match pStd.1 with
    | Except.error k => Except.error k
    | Except.ok _ => pTokio.1
  (r, { std := pStd.2, tokio := pTokio.2 })

/-- Per-flavor outcomes of one `notify_err` run. -/
structure NotifyOutcome (H : Type) where
  stdDispatch : Except ErrHandlingErrorKind (DispatchResult H)
  tokioDispatch : Except ErrHandlingErrorKind (TokioDispatchResult H)

/-- Embedding of `notify_err` (src/notify/mod.rs lines 145-162): both
flavors dispatch (each runs regardless of the other's result); the
reported result is the std error first, else the tokio one. -/
def notify_err {H : Type} (inv : Inventory H) (hasAmbientRuntime : Bool)
    (st : NotifyState H) : NotifyOutcome H × NotifyState H :=
  let pStd := handle_err inv.syncInv inv.asyncInv st.std
  let pTokio := tokio_handle_err inv.tokioInv hasAmbientRuntime st.tokio
  ({ stdDispatch := pStd.1, tokioDispatch := pTokio.1 },
   { std := pStd.2, tokio := pTokio.2 })

/-- The `Result` that `notify_err` returns to the constructor: the std
error if any, else the tokio error if any, else `Ok`. -/
def NotifyOutcome.combined {H : Type} (o : NotifyOutcome H) :
    Except ErrHandlingErrorKind Unit :=
  match o.stdDispatch with
  | Except.error k => Except.error k
  | Except.ok _ =>
    match o.tokioDispatch with
    | Except.error k => Except.error k
    | Except.ok _ => Except.ok ()

/-- Everything `Err::new` / `Err::with_source` produce under the notify
features: the constructed value (always), the dispatch outcomes, the
registry state afterwards, and the `eprintln!` side channel. -/
structure NewOutcome (R H : Type) where
  err : Err R
  outcome : NotifyOutcome H
  state : NotifyState H
  sideChannel : List String

/-- Embedding of `Err::new` with notification enabled (src/err.rs lines
49-84): the value is built, a copy is handed to `notify_err`, any
dispatch error is written to stderr as `ERROR(errs): <debug>`, and the
value is returned to the caller unconditionally. -/
def newWithNotify {R H : Type} (inv : Inventory H) (hasAmbientRuntime : Bool)
    (st : NotifyState H) (file : String) (line tid : Nat) (tname : String)
    (r : R) (rdbg : String) : NewOutcome R H :=
  let e := Err.new file line tid tname r rdbg
  let p := notify_err inv hasAmbientRuntime st
  { err := e, outcome := p.1, state := p.2,
    sideChannel :=
      match p.1.combined with
      | Except.ok _ => []
      | Except.error k => ["ERROR(errs): " ++ errHandlingErrorDebug k] }

/-- Embedding of `Err::with_source` with notification enabled
(src/err.rs lines 111-147), analogous to `newWithNotify`. -/
def withSourceNotify {R H : Type} (inv : Inventory H) (hasAmbientRuntime : Bool)
    (st : NotifyState H) (file : String) (line tid : Nat) (tname : String)
    (r : R) (rdbg srcDbg : String) : NewOutcome R H :=
  let e := Err.with_source file line tid tname r rdbg srcDbg
  let p := notify_err inv hasAmbientRuntime st
  { err := e, outcome := p.1, state := p.2,
    sideChannel :=
      match p.1.combined with
      | Except.ok _ => []
      | Except.error k => ["ERROR(errs): " ++ errHandlingErrorDebug k] }

/-! ## Helper lemmas -/

/-- Strings are equal when their character lists are. -/
theorem string_eq_of_data_eq {a b : String} (h : a.data = b.data) : a = b := by
  cases a
  cases b
  exact congrArg String.mk h

theorem string_append_data (a b : String) : (a ++ b).data = a.data ++ b.data := by
  cases a
  cases b
  rfl

theorem string_append_assoc (a b c : String) : a ++ b ++ c = a ++ (b ++ c) := by
  apply string_eq_of_data_eq
  simp [string_append_data]

/-! ## Claim C1: Debug rendering -/

/-- Claim C1 as written is false: at an `Err` built by `with_source`, the
code's Debug rendering places the `, source = <cause-debug>` segment
immediately after the reason field, before `file`, not after the `line`
field as the spec's template demands. Concrete input: reason type path
`m::T`, reason debug `T0`, source debug `S0`, created at
`src/err.rs:10`. -/
theorem c1_debug_source_position_counterexample :
    Err.debugFmt (Err.with_source "src/err.rs" 10 1 "m::T" (0 : Nat) "T0" "S0")
      ≠ errDebugSpecTemplate (Err.with_source "src/err.rs" 10 1 "m::T" (0 : Nat) "T0" "S0") := by
  decide

/-- Claim C1, amended: for every `Err` value, the Debug rendering is
exactly `"errs::Err { reason = <type-path> <reason-debug>[, source =
<cause-debug>], file = <file>, line = <line> }"`: the optional source
segment appears immediately after the reason field and before the
`file` field whenever a cause is present. -/
theorem c1_debug_format (R : Type) (e : Err R) :
    Err.debugFmt e = errDebugAmendedTemplate e := by
  cases e with
  | mk file line tid tname r rdbg srcDbg =>
    cases srcDbg with
    | none =>
      simp [Err.debugFmt, errDebugAmendedTemplate, debug_reason_and_source,
        string_append_assoc]
    | some s =>
      simp [Err.debugFmt, errDebugAmendedTemplate, debug_reason_and_source,
        string_append_assoc]

/-! ## Claim C3: type-checked reason extraction -/

/-- Claim C3: for every reason value `r` of concrete type `R` (type id
`tid`) passed to `new`, extracting at `R`'s own type id returns `Ok`
with the original reason, and extracting at the id of any different
type returns `Err` with the `Err` value itself. The type test is the
exact id equality of `is_reason`, and the operation is a total
function, so it never panics. -/
theorem c3_reason_extraction (R : Type) (file : String) (line tid : Nat)
    (tname : String) (r : R) (rdbg : String) (sid : Nat) (hne : sid ≠ tid) :
    (Err.new file line tid tname r rdbg).reasonAs tid = Sum.inl r
    ∧ (Err.new file line tid tname r rdbg).reasonAs sid
        = Sum.inr (Err.new file line tid tname r rdbg) := by
  constructor
  · simp [Err.reasonAs, is_reason, Err.new]
  · have hb : (tid == sid) = false := by
      simp only [beq_eq_false_iff_ne, ne_eq]
      exact fun hh => hne hh.symm
    simp [Err.reasonAs, is_reason, Err.new, hb]

/-- Witness for `c3_reason_extraction` at the concrete reason `123 : Int`
with type id 1, probing the foreign type id 2. -/
theorem c3_reason_extraction_witness :
    (2 : Nat) ≠ 1
    ∧ ((Err.new "src/err.rs" 5 1 "i64" (123 : Int) "123").reasonAs 1
          = Sum.inl 123
        ∧ (Err.new "src/err.rs" 5 1 "i64" (123 : Int) "123").reasonAs 2
          = Sum.inr (Err.new "src/err.rs" 5 1 "i64" (123 : Int) "123")) :=
  ⟨by decide, c3_reason_extraction Int "src/err.rs" 5 1 "i64" 123 "123" 2 (by decide)⟩

/-! ## Claim C9: Display rendering -/

/-- Claim C9: for every `Err`, the Display rendering equals the debug
rendering of the reason value alone (`display_reason_and_source` writes
only `{:?}` of the reason), with no cause, file or line included; in
particular `new(InvalidValue{name:"foo", value:"abc"})` displays as
`InvalidValue { name: "foo", value: "abc" }`. -/
theorem c9_display_reason_only (R : Type) (file : String) (line tid : Nat)
    (tname : String) (r : R) (rdbg srcDbg : String) :
    (Err.new file line tid tname r rdbg).displayFmt = rdbg
    ∧ (Err.with_source file line tid tname r rdbg srcDbg).displayFmt = rdbg
    ∧ (Err.new file line tid tname (InvalidValue.mk "foo" "abc")
        (InvalidValue.rustDebug (InvalidValue.mk "foo" "abc"))).displayFmt
        = "InvalidValue \x7b name: \"foo\", value: \"abc\" \x7d" := by
  refine ⟨rfl, rfl, ?_⟩
  show InvalidValue.rustDebug (InvalidValue.mk "foo" "abc") = _
  decide

/-! ## Claim C7: exactly-once destruction of the payload -/

/-- Claim C7: under the two-owner atomic hand-off the payload is
destroyed exactly once, when its last owner releases it. Each owner's
drop is the single atomic step `drop_reason_and_source` (the
`fetch_and` check-and-clear), and the two owners run the identical
step, so every interleaving of their drops is the same two-step trace
from `payloadInit`: the first drop observes the marker still set,
clears it and does not free; the second observes it already cleared
and performs the one free. No free happens while an owner remains, and
after both drops the payload has been freed exactly once. -/
theorem c7_payload_freed_exactly_once :
    (drop_reason_and_source payloadInit).isReferencedByAnother = false
    ∧ (drop_reason_and_source payloadInit).freeCount = 0
    ∧ (drop_reason_and_source payloadInit).owners = 1
    ∧ (drop_reason_and_source (drop_reason_and_source payloadInit)).freeCount = 1
    ∧ (drop_reason_and_source (drop_reason_and_source payloadInit)).owners = 0 := by
  decide

/-! ## Claim C2: infallible construction -/

/-- Claim C2: `new` and `with_source` are infallible. For every registry
state — including every environmental fault and every phase — the
constructed `Err` value is exactly the one prescribed by the inputs and
is returned to the caller; a dispatch failure of any kind `k` is
reported only on the `eprintln!` side channel. -/
theorem c2_construction_infallible (R H : Type) (inv : Inventory H)
    (hasRt : Bool) (st : NotifyState H) (file : String) (line tid : Nat)
    (tname : String) (r : R) (rdbg srcDbg : String) :
    (newWithNotify inv hasRt st file line tid tname r rdbg).err
      = Err.new file line tid tname r rdbg
    ∧ (withSourceNotify inv hasRt st file line tid tname r rdbg srcDbg).err
      = Err.with_source file line tid tname r rdbg srcDbg
    ∧ (∀ k : ErrHandlingErrorKind,
        (newWithNotify inv hasRt st file line tid tname r rdbg).outcome.combined
          = Except.error k →
        (newWithNotify inv hasRt st file line tid tname r rdbg).sideChannel
          = ["ERROR(errs): " ++ errHandlingErrorDebug k]) := by
  refine ⟨rfl, rfl, ?_⟩
  intro k hk
  simp only [newWithNotify] at hk ⊢
  rw [hk]

/-- Witness for `c2_construction_infallible` at a registry whose std
cell's mutex is poisoned: the `Err` is still constructed and the fault
lands on the side channel. -/
theorem c2_construction_infallible_witness :
    (newWithNotify (Inventory.mk ([] : List Nat) [] []) false
        (NotifyState.mk (StdRegistry.mk Phase.Open [] []
            (some RegistryFault.DataMutexPoisoned))
          (TokioRegistry.mk Phase.Open [] none))
        "src/err.rs" 7 1 "bool" true "true").err
      = Err.new "src/err.rs" 7 1 "bool" true "true"
    ∧ (newWithNotify (Inventory.mk ([] : List Nat) [] []) false
        (NotifyState.mk (StdRegistry.mk Phase.Open [] []
            (some RegistryFault.DataMutexPoisoned))
          (TokioRegistry.mk Phase.Open [] none))
        "src/err.rs" 7 1 "bool" true "true").sideChannel
      = ["ERROR(errs): " ++
          errHandlingErrorDebug ErrHandlingErrorKind.StdMutexIsPoisoned] := by
  have h := c2_construction_infallible Bool Nat (Inventory.mk [] [] []) false
    (NotifyState.mk (StdRegistry.mk Phase.Open [] []
        (some RegistryFault.DataMutexPoisoned))
      (TokioRegistry.mk Phase.Open [] none))
    "src/err.rs" 7 1 "bool" true "true" "src"
  exact ⟨h.1, h.2.2 ErrHandlingErrorKind.StdMutexIsPoisoned rfl⟩

/-! ## Claim C4: synchronous handlers run inline, in order -/

/-- Claim C4: with notification enabled and the std registry fixed with
synchronous handlers `H1, ..., Hn` in registration order, every `Err`
construction dispatches exactly those handlers inline, in that stored
order (`syncInvoked = st.std.syncHandlers`). In this sequential
embedding the dispatch result is produced inside `newWithNotify`
before the constructed value is returned, which models that all
synchronous handlers complete on the constructing thread before
construction returns. -/
theorem c4_sync_handlers_in_order (R H : Type) (inv : Inventory H)
    (hasRt : Bool) (st : NotifyState H) (file : String) (line tid : Nat)
    (tname : String) (r : R) (rdbg : String)
    (hphase : st.std.phase = Phase.Fixed) (hfault : st.std.fault = none) :
    (newWithNotify inv hasRt st file line tid tname r rdbg).outcome.stdDispatch
      = Except.ok { syncInvoked := st.std.syncHandlers,
                    asyncScheduled := st.std.asyncHandlers,
                    carrierThreadSpawned := true } := by
  simp [newWithNotify, notify_err, handle_err, std_transition_to_read,
    hphase, hfault]

/-- Witness for `c4_sync_handlers_in_order` at a fixed registry holding
the two synchronous handlers `10` and `20` in that order. -/
theorem c4_sync_handlers_in_order_witness :
    (StdRegistry.mk Phase.Fixed [10, 20] [] none).phase = Phase.Fixed
    ∧ (StdRegistry.mk Phase.Fixed [10, 20] [] none).fault = none
    ∧ (newWithNotify (Inventory.mk [] [] []) false
        (NotifyState.mk (StdRegistry.mk Phase.Fixed [10, 20] [] none)
          (TokioRegistry.mk Phase.Fixed [] none))
        "src/err.rs" 9 1 "bool" true "true").outcome.stdDispatch
      = Except.ok { syncInvoked := [10, 20], asyncScheduled := ([] : List Nat),
                    carrierThreadSpawned := true } :=
  ⟨rfl, rfl,
    c4_sync_handlers_in_order Bool Nat (Inventory.mk [] [] []) false
      (NotifyState.mk (StdRegistry.mk Phase.Fixed [10, 20] [] none)
        (TokioRegistry.mk Phase.Fixed [] none))
      "src/err.rs" 9 1 "bool" true "true" rfl rfl⟩

/-! ## Claim C5: registration succeeds while Open, fails once Fixed -/

/-- Claim C5: on a healthy registry, every registration call made after
the registry is fixed returns `InvalidCallTiming`, for all three add
functions, and every registration call made while the registry is
still Open succeeds with `Ok` and appends the handler. -/
theorem c5_registration_phase_discipline (H : Type)
    (sO sF : StdRegistry H) (tO tF : TokioRegistry H) (h th : H)
    (hsO : sO.phase = Phase.Open) (hsOf : sO.fault = none)
    (hsF : sF.phase = Phase.Fixed) (hsFf : sF.fault = none)
    (htO : tO.phase = Phase.Open) (htOf : tO.fault = none)
    (htF : tF.phase = Phase.Fixed) (htFf : tF.fault = none) :
    (add_sync_handler sF h).1
      = Except.error ErrHandlingErrorKind.InvalidCallTiming
    ∧ (add_async_handler sF h).1
      = Except.error ErrHandlingErrorKind.InvalidCallTiming
    ∧ (add_tokio_async_handler tF th).1
      = Except.error ErrHandlingErrorKind.InvalidCallTiming
    ∧ add_sync_handler sO h
      = (Except.ok (), { sO with syncHandlers := sO.syncHandlers ++ [h] })
    ∧ add_async_handler sO h
      = (Except.ok (), { sO with asyncHandlers := sO.asyncHandlers ++ [h] })
    ∧ add_tokio_async_handler tO th
      = (Except.ok (), { tO with handlers := tO.handlers ++ [th] }) := by
  refine ⟨?_, ?_, ?_, ?_, ?_, ?_⟩ <;>
    simp [add_sync_handler, add_async_handler, add_tokio_async_handler,
      hsO, hsOf, hsF, hsFf, htO, htOf, htF, htFf]

/-- Witness for `c5_registration_phase_discipline` with concrete Open
and Fixed registries and handlers `7` and `8`. -/
theorem c5_registration_phase_discipline_witness :
    (add_sync_handler (StdRegistry.mk Phase.Fixed [1] [2] none) 7).1
      = Except.error ErrHandlingErrorKind.InvalidCallTiming
    ∧ (add_async_handler (StdRegistry.mk Phase.Fixed [1] [2] none) 7).1
      = Except.error ErrHandlingErrorKind.InvalidCallTiming
    ∧ (add_tokio_async_handler (TokioRegistry.mk Phase.Fixed [3] none) 8).1
      = Except.error ErrHandlingErrorKind.InvalidCallTiming
    ∧ add_sync_handler (StdRegistry.mk Phase.Open [1] [2] none) 7
      = (Except.ok (), StdRegistry.mk Phase.Open [1, 7] [2] none)
    ∧ add_async_handler (StdRegistry.mk Phase.Open [1] [2] none) 7
      = (Except.ok (), StdRegistry.mk Phase.Open [1] [2, 7] none)
    ∧ add_tokio_async_handler (TokioRegistry.mk Phase.Open [3] none) 8
      = (Except.ok (), TokioRegistry.mk Phase.Open [3, 8] none) :=
  c5_registration_phase_discipline Nat
    (StdRegistry.mk Phase.Open [1] [2] none)
    (StdRegistry.mk Phase.Fixed [1] [2] none)
    (TokioRegistry.mk Phase.Open [3] none)
    (TokioRegistry.mk Phase.Fixed [3] none)
    7 8 rfl rfl rfl rfl rfl rfl rfl rfl

/-! ## Claim C6: `fix_err_handlers` is idempotent -/

/-- Claim C6: on a healthy registry, `fix_err_handlers` returns `Ok`
(also when already fixed), the fixed snapshot is assembled exactly once
— a first fix from Open merges the externally pre-declared inventory
exactly once, in front of the runtime handlers — and a second fix
returns `Ok` and leaves the snapshot unchanged, so no duplicate
handler entries and hence no duplicate dispatch can arise. -/
theorem c6_fix_idempotent (H : Type) (inv : Inventory H) (st : NotifyState H)
    (hstd : st.std.fault = none) (htok : st.tokio.fault = none) :
    (fix_err_handlers inv st).1 = Except.ok ()
    ∧ fix_err_handlers inv (fix_err_handlers inv st).2
        = (Except.ok (), (fix_err_handlers inv st).2)
    ∧ (st.std.phase = Phase.Open →
        (fix_err_handlers inv st).2.std.syncHandlers
          = inv.syncInv ++ st.std.syncHandlers
        ∧ (fix_err_handlers inv st).2.std.asyncHandlers
          = inv.asyncInv ++ st.std.asyncHandlers)
    ∧ (st.tokio.phase = Phase.Open →
        (fix_err_handlers inv st).2.tokio.handlers
          = inv.tokioInv ++ st.tokio.handlers) := by
  cases hp : st.std.phase <;> cases hq : st.tokio.phase <;>
    simp [fix_err_handlers, fix_handlers, tokio_fix_handlers,
      std_transition_to_read, tokio_transition_to_read,
      register_handlers_by_inventory, hstd, htok, hp, hq]

/-- Witness for `c6_fix_idempotent` at an Open registry holding runtime
handlers `[1]`, `[2]`, `[3]` and inventory `[4]`, `[5]`, `[6]`. -/
theorem c6_fix_idempotent_witness :
    (fix_err_handlers (Inventory.mk [4] [5] [6])
        (NotifyState.mk (StdRegistry.mk Phase.Open [1] [2] none)
          (TokioRegistry.mk Phase.Open [3] none))).1 = Except.ok ()
    ∧ fix_err_handlers (Inventory.mk [4] [5] [6])
        (fix_err_handlers (Inventory.mk [4] [5] [6])
          (NotifyState.mk (StdRegistry.mk Phase.Open [1] [2] none)
            (TokioRegistry.mk Phase.Open [3] none))).2
        = (Except.ok (),
            (fix_err_handlers (Inventory.mk [4] [5] [6])
              (NotifyState.mk (StdRegistry.mk Phase.Open [1] [2] none)
                (TokioRegistry.mk Phase.Open [3] none))).2)
    ∧ ((StdRegistry.mk Phase.Open [1] [2] none).phase = Phase.Open →
        (fix_err_handlers (Inventory.mk [4] [5] [6])
          (NotifyState.mk (StdRegistry.mk Phase.Open [1] [2] none)
            (TokioRegistry.mk Phase.Open [3] none))).2.std.syncHandlers
          = [4] ++ [1]
        ∧ (fix_err_handlers (Inventory.mk [4] [5] [6])
            (NotifyState.mk (StdRegistry.mk Phase.Open [1] [2] none)
              (TokioRegistry.mk Phase.Open [3] none))).2.std.asyncHandlers
          = [5] ++ [2])
    ∧ ((TokioRegistry.mk Phase.Open ([3] : List Nat) none).phase = Phase.Open →
        (fix_err_handlers (Inventory.mk [4] [5] [6])
          (NotifyState.mk (StdRegistry.mk Phase.Open [1] [2] none)
            (TokioRegistry.mk Phase.Open [3] none))).2.tokio.handlers
          = [6] ++ [3]) :=
  c6_fix_idempotent Nat (Inventory.mk [4] [5] [6])
    (NotifyState.mk (StdRegistry.mk Phase.Open [1] [2] none)
      (TokioRegistry.mk Phase.Open [3] none)) rfl rfl

/-! ## Claim C8: zero registered handlers -/

/-- Claim C8 as written is false on the code: with the std registry
fixed and holding zero handlers, the dispatcher does not skip and does
schedule work — `handle_err` unconditionally spawns its carrier thread
(`thread::spawn` at src/notify/std_handler.rs lines 127-133) even
though both handler lists are empty. -/
theorem c8_zero_handlers_counterexample :
    ¬ (stdDispatchSpawnedWork
        (handle_err ([] : List Nat) []
          (StdRegistry.mk Phase.Fixed [] [] none)).1 = false) := by
  decide

/-- Claim C8, amended: when the registry holds zero handlers (fixed with
none, or still Open and empty with an empty inventory), constructing an
`Err` performs no dispatch-observable side effect — no handler is
invoked and no handler task is scheduled — but the dispatcher does not
skip entirely: the std flavor performs the implicit freeze and still
spawns its carrier thread, and the tokio flavor still spawns a
dedicated runtime thread when no ambient runtime exists (it schedules
nothing when one does). -/
theorem c8_zero_handlers_no_observable_dispatch (H : Type)
    (st : StdRegistry H) (ts : TokioRegistry H) (hasRt : Bool)
    (hsf : st.fault = none) (hsy : st.syncHandlers = [])
    (hsa : st.asyncHandlers = [])
    (htf : ts.fault = none) (hth : ts.handlers = []) :
    (handle_err ([] : List H) [] st).1
      = Except.ok { syncInvoked := [], asyncScheduled := [],
                    carrierThreadSpawned := true }
    ∧ (tokio_handle_err ([] : List H) hasRt ts).1
      = Except.ok { tasksScheduled := [],
                    carrierThreadSpawned := !hasRt } := by
  constructor
  · cases hp : st.phase <;>
      simp [handle_err, std_transition_to_read,
        register_handlers_by_inventory, hsf, hsy, hsa, hp]
  · cases hq : ts.phase <;>
      simp [tokio_handle_err, tokio_transition_to_read, htf, hth, hq]

/-- Witness for `c8_zero_handlers_no_observable_dispatch` at concrete
empty fixed registries of both flavors, outside a tokio runtime. -/
theorem c8_zero_handlers_no_observable_dispatch_witness :
    (handle_err ([] : List Nat) [] (StdRegistry.mk Phase.Fixed [] [] none)).1
      = Except.ok { syncInvoked := [], asyncScheduled := [],
                    carrierThreadSpawned := true }
    ∧ (tokio_handle_err ([] : List Nat) false
        (TokioRegistry.mk Phase.Fixed [] none)).1
      = Except.ok { tasksScheduled := [], carrierThreadSpawned := !false } :=
  c8_zero_handlers_no_observable_dispatch Nat
    (StdRegistry.mk Phase.Fixed [] [] none)
    (TokioRegistry.mk Phase.Fixed [] none) false rfl rfl rfl rfl rfl

/-! ## Claim C10: inventory handlers precede runtime handlers -/

/-- Claim C10: the freeze that builds the dispatch snapshot splices the
statically pre-declared (inventory-collected) handlers at the front of
each flavor's sequence, so the fixed sequences are
`inventory ++ runtime` and, on every subsequent dispatch, each
statically declared handler of a flavor precedes every
runtime-registered handler of that flavor in the dispatch iteration
order. -/
theorem c10_inventory_precedes_runtime (H : Type) (inv : Inventory H)
    (st : NotifyState H) (hasRt : Bool)
    (hsf : st.std.fault = none) (htf : st.tokio.fault = none)
    (hsp : st.std.phase = Phase.Open) (htp : st.tokio.phase = Phase.Open) :
    (fix_err_handlers inv st).2.std.syncHandlers
      = inv.syncInv ++ st.std.syncHandlers
    ∧ (fix_err_handlers inv st).2.std.asyncHandlers
      = inv.asyncInv ++ st.std.asyncHandlers
    ∧ (fix_err_handlers inv st).2.tokio.handlers
      = inv.tokioInv ++ st.tokio.handlers
    ∧ (handle_err inv.syncInv inv.asyncInv (fix_err_handlers inv st).2.std).1
      = Except.ok { syncInvoked := inv.syncInv ++ st.std.syncHandlers,
                    asyncScheduled := inv.asyncInv ++ st.std.asyncHandlers,
                    carrierThreadSpawned := true }
    ∧ (tokio_handle_err inv.tokioInv hasRt
        (fix_err_handlers inv st).2.tokio).1
      = Except.ok { tasksScheduled := inv.tokioInv ++ st.tokio.handlers,
                    carrierThreadSpawned := !hasRt } := by
  simp [fix_err_handlers, fix_handlers, tokio_fix_handlers,
    std_transition_to_read, tokio_transition_to_read,
    register_handlers_by_inventory, handle_err, tokio_handle_err,
    hsf, htf, hsp, htp]

/-- Witness for `c10_inventory_precedes_runtime` with inventory handlers
`[4]`, `[5]`, `[6]` and runtime handlers `[1]`, `[2]`, `[3]`. -/
theorem c10_inventory_precedes_runtime_witness :
    (fix_err_handlers (Inventory.mk [4] [5] [6])
        (NotifyState.mk (StdRegistry.mk Phase.Open [1] [2] none)
          (TokioRegistry.mk Phase.Open [3] none))).2.std.syncHandlers
      = [4] ++ [1]
    ∧ (fix_err_handlers (Inventory.mk [4] [5] [6])
        (NotifyState.mk (StdRegistry.mk Phase.Open [1] [2] none)
          (TokioRegistry.mk Phase.Open [3] none))).2.std.asyncHandlers
      = [5] ++ [2]
    ∧ (fix_err_handlers (Inventory.mk [4] [5] [6])
        (NotifyState.mk (StdRegistry.mk Phase.Open [1] [2] none)
          (TokioRegistry.mk Phase.Open [3] none))).2.tokio.handlers
      = [6] ++ [3]
    ∧ (handle_err [4] [5]
        (fix_err_handlers (Inventory.mk [4] [5] [6])
          (NotifyState.mk (StdRegistry.mk Phase.Open [1] [2] none)
            (TokioRegistry.mk Phase.Open [3] none))).2.std).1
      = Except.ok { syncInvoked := [4] ++ [1], asyncScheduled := [5] ++ [2],
                    carrierThreadSpawned := true }
    ∧ (tokio_handle_err [6] true
        (fix_err_handlers (Inventory.mk [4] [5] [6])
          (NotifyState.mk (StdRegistry.mk Phase.Open [1] [2] none)
            (TokioRegistry.mk Phase.Open [3] none))).2.tokio).1
      = Except.ok { tasksScheduled := [6] ++ [3],
                    carrierThreadSpawned := !true } :=
  c10_inventory_precedes_runtime Nat (Inventory.mk [4] [5] [6])
    (NotifyState.mk (StdRegistry.mk Phase.Open [1] [2] none)
      (TokioRegistry.mk Phase.Open [3] none)) true rfl rfl rfl rfl

end Errs

